import Mathlib

/-!
Shallow embedding of the FlashCur market-data refresh and volume-spike alert
pipeline (`src/app.py`, `src/config.py`), together with theorems settling the
specification claims about it.

Modelling conventions:
* Python floats that only feed comparisons and arithmetic are modelled as `ℚ`.
* A JSON numeric field whose `float(...)` conversion may raise is an
  `Option ℚ` (`none` means the conversion raises).
* Fallible code returns `Except Unit _`; an uncaught Python exception is
  `.error ()`.
* `threading.Lock` is non-reentrant: acquiring it while the same thread
  already holds it blocks forever.  Operations that can do so return
  `DMResult.deadlock`.
* Wall-clock datetimes are represented by the fields the code actually
  branches on: the UTC minute for `scan_alerts`, epoch milliseconds for kline
  timestamps, and an abstract rational instant for cache timestamps.
-/

namespace FlashCur

/-- Python's slice `l[-n:]`: the last `n` elements of `l` (all of `l` when it
is shorter than `n`). -/
def takeLast {α : Type} (n : Nat) (l : List α) : List α := l.drop (l.length - n)

/-- One alert-log append as performed in `scan_alerts` (`app.py:729-730`):
`alerts.append(ev)` followed by `alerts = alerts[-30:]`. -/
def pushAlert {α : Type} (log : List α) (ev : α) : List α := takeLast 30 (log ++ [ev])

/-- Result of one `session.get` attempt against one mirror URL inside
`fetch_with_fallback` (`app.py:318`): a response carrying an HTTP status code
and a payload, or an exception raised by the request itself. -/
inductive Attempt (α : Type) where
  | resp (status : Nat) (payload : α)
  | exn
deriving DecidableEq

/-- An attempt that `fetch_with_fallback` accepts: an HTTP 200 response. -/
def Attempt.ok200 {α : Type} : Attempt α → Bool
  | .resp status _ => status == 200
  | .exn => false

/-- Embedding of `fetch_with_fallback` (`app.py:310-343`): try the mirror
URLs in order; return the first response whose status is 200; on a 451
geo-block status, any other non-200 status, or an exception, move on to the
next mirror (the source only logs differently in those three cases); return
`none` once every mirror has been tried without a 200. -/
def fetch_with_fallback {α : Type} : List (Attempt α) → Option α
  | [] => none
  | .resp status payload :: rest =>
      if status = 200 then some payload else fetch_with_fallback rest
  | .exn :: rest => fetch_with_fallback rest

/-- One kline row as used by the alert scanner: open time `k[0]` and close
time `k[6]` in epoch milliseconds, and the quote-asset volume field `k[7]`.
The volume is `Option ℚ`: `none` models a row on which `float(k[7])` raises
(`app.py:681-682` performs that conversion outside any handler). -/
structure Kline where
  openTime : Int
  closeTime : Int
  quoteVol : Option ℚ
deriving DecidableEq

/-- `VOLUME_MULTIPLE` (`app.py:63`): `config.FREE_TIER['volume_multiple'] = 3`
(`config.py:90`). -/
def VOLUME_MULTIPLE : ℚ := 3

/-- `MIN_QUOTE_VOL` (`app.py:64`): `config.FREE_TIER['min_quote_volume'] or
3_000_000` where the tier value is `None` (`config.py:89`), hence 3000000. -/
def MIN_QUOTE_VOL : ℚ := 3000000

/-- Truncation of an epoch-milliseconds timestamp to its hour, standing for
`datetime.fromtimestamp(ms / 1000, utc).replace(minute=0, second=0,
microsecond=0)` (`app.py:685-686`); two kline open times land on the same
truncated datetime exactly when they land in the same hour. -/
def hourOf (ms : Int) : Int := ms / 3600000

/-- Per-symbol alert state: the entries of the module-level dicts
`last_alert` and `initial_alert_minute` for one symbol (`app.py:631-632`);
`none` means the symbol is absent from the dict. -/
structure AlertState where
  lastAlert : Option Int
  initialMinute : Option Nat
deriving DecidableEq

/-- Kind of an emitted alert, per the spec's classification: an initial spike,
a half-hour follow-up (message prefixed `"HALF-UPDATE: "`) or a full-hour
follow-up (message prefixed `"UPDATE: "`). -/
inductive EventKind where
  | spike
  | halfUpdate
  | fullUpdate
deriving DecidableEq

/-- One entry appended to the rolling `alerts` log (`app.py:729`): the tuple
`(utc_now, alert_msg)`.  The rendered message is `updatePref` followed by a
body built from the symbol's asset name and the formatted volume and ratio
(`app.py:717-728`); the numeric string formatting and the asset-name
derivation are presentation and are kept as raw fields here. -/
structure AlertEvent where
  minute : Nat
  updatePref : String
  sym : String
  volume : ℚ
  ratio : ℚ
  kind : EventKind
deriving DecidableEq

/-- Embedding of the per-symbol detection logic of `scan_alerts`
(`app.py:681-730`): the part of the loop body after the kline-fetch
`try`/`except`.  There is no handler around this part, so a `.error ()`
result is an exception propagating out of `scan_alerts` — in particular
`float(prev[7])` or `float(curr[7])` raising on a malformed volume field. -/
def scan_detect (sym : String) (minute : Nat) (prev curr : Kline)
    (st : AlertState) : Except Unit (List AlertEvent × AlertState) :=
  match prev.quoteVol, curr.quoteVol with
  | some prevVol, some currVol =>
    let ratio : ℚ := if prevVol = 0 then 0 else currVol / prevVol
    let currHour : Int := hourOf curr.openTime
    let alreadyAlerted : Bool := decide (st.lastAlert = some currHour)
    let spike : Bool :=
      decide (VOLUME_MULTIPLE ≤ ratio) && decide (MIN_QUOTE_VOL ≤ currVol) &&
        !alreadyAlerted
    let initialMin : Nat := st.initialMinute.getD 0
    let updInfo : Bool × String :=
      if alreadyAlerted then
        if minute = 30 then
          if initialMin ≤ 20 then (true, "HALF-UPDATE: ") else (false, "")
        else if minute = 0 then
          if initialMin ≠ 55 then (true, "UPDATE: ") else (false, "")
        else (false, "")
      else (false, "")
    let st' : AlertState :=
      if spike then AlertState.mk (some currHour) (some minute) else st
    let events : List AlertEvent :=
      if spike || updInfo.1 then
        [AlertEvent.mk minute updInfo.2 sym currVol ratio
          (if spike then .spike
           else if minute = 30 then .halfUpdate else .fullUpdate)]
      else []
    .ok (events, st')
  | _, _ => .error ()

/-- Embedding of `last_two_closed_klines` (`app.py:635-647`): fetch the last
3 klines (the argument holds the parsed response, or `.error ()` if the
request, the JSON parsing or the filtering raised — all caught by the
function's own `try`), keep the candles whose close time is strictly before
now, and return the last two of those, or `[]` when fewer than 2 remain. -/
def last_two_closed_klines (fetched : Except Unit (List Kline)) (nowMs : Int) :
    List Kline :=
  match fetched with
  | .error _ => []
  | .ok kl =>
    let closed := kl.filter (fun k => decide (k.closeTime < nowMs))
    if 2 ≤ closed.length then takeLast 2 closed else []

/-- One iteration of the symbol loop of `scan_alerts` (`app.py:662-730`):
candle selection under the `try`/`except Exception: continue`
(`app.py:663-679`) followed by `scan_detect`.  At the top of the hour the
candles come from `last_two_closed_klines`; otherwise the last two of the
fetched list are used directly (`kl[-2], kl[-1]`).  Fewer than two candles,
or an exception inside the `try`, skips the symbol.  `.error ()` is an
exception raised after the `try` (inside `scan_detect`). -/
def scan_symbol (sym : String) (minute : Nat) (nowMs : Int)
    (fetched : Except Unit (List Kline)) (st : AlertState) :
    Except Unit (List AlertEvent × AlertState) :=
  if minute = 0 then
    match last_two_closed_klines fetched nowMs with
    | [prev, curr] => scan_detect sym minute prev curr st
    | _ => .ok ([], st)
  else
    match fetched with
    | .error _ => .ok ([], st)
    | .ok kl =>
      match takeLast 2 kl with
      | [prev, curr] => scan_detect sym minute prev curr st
      | _ => .ok ([], st)

/-- Result of one `scan_alerts` cycle: the per-symbol state map, the rolling
log, and whether the cycle was aborted by an uncaught exception (which is then
caught by `alert_scanner`, `app.py:803-809`, ending the cycle early but
retaining all mutations made before it). -/
structure ScanResult where
  states : String → AlertState
  log : List AlertEvent
  aborted : Bool

/-- Embedding of the symbol loop of `scan_alerts` (`app.py:662-730`): process
the symbols in order, threading the `last_alert`/`initial_alert_minute` map
and the rolling `alerts` log; an uncaught exception in a loop body stops the
loop there.  The email fan-out block (`app.py:732-797`) is elided: it sits in
its own `try`/`except Exception` after the log append, so it neither mutates
the alert state or log nor lets an exception escape. -/
def scan_alerts (minute : Nat) (nowMs : Int)
    (fetched : String → Except Unit (List Kline)) :
    List String → (String → AlertState) → List AlertEvent → ScanResult
  | [], states, log => ScanResult.mk states log false
  | sym :: rest, states, log =>
    match scan_symbol sym minute nowMs (fetched sym) (states sym) with
    | .error _ => ScanResult.mk states log true
    | .ok (evs, st') =>
        scan_alerts minute nowMs fetched rest
          (fun s => if s = sym then st' else states s)
          (evs.foldl pushAlert log)

/-- In-memory state of `DataManager` (`app.py:353-360`): the active symbol
set, the basic and extended cache slots, and the single shared last-update
timestamp.  The entry type is abstract: the claims about the cache concern
its update discipline, not the shape of a row.  The `cache_lock` itself is
not part of the state: it is modelled by the `lockHeld` argument of
`fetch_data`. -/
structure DMState (E : Type) where
  activeSyms : List String
  cachedData : List E
  cachedProData : List E
  lastUpdate : Option ℚ
deriving DecidableEq

/-- Result of running a `DataManager` method from a thread: a returned value,
or a deadlock from acquiring the non-reentrant `cache_lock` while the same
thread already holds it. -/
inductive DMResult (α : Type) where
  | ret (v : α)
  | deadlock
deriving DecidableEq

/-- How one run of the `fetch_data` body (`app.py:407-566`) goes:
* `volumeNone` — `fetch_with_fallback` on the volume URL chain returns `None`
  (`app.py:429-432`);
* `fundingNone` — the volume fetch succeeds but the funding chain returns
  `None` (`app.py:446-449`);
* `exn` — an exception is raised inside the `try` (`app.py:557`);
* `ok processed` — the whole fetch-join-filter-sort computation succeeds and
  yields `processed` (the network payloads and the row processing of
  `app.py:451-545` are abstracted into this resulting list). -/
inductive RefreshOutcome (E : Type) where
  | volumeNone
  | fundingNone
  | exn
  | ok (processed : List E)
deriving DecidableEq

/-- Embedding of `DataManager.fetch_data` (`app.py:407-566`).  First, if the
active-symbol set is empty, it is replaced by a fresh fetch (`app.py:415-416`;
`fetch_active_symbols` never raises).  Then: on `volumeNone`/`fundingNone`
the method returns `[]` early without touching `cache_lock`; on `ok` it
acquires `cache_lock` (`app.py:548`), swaps the requested slot and sets the
shared timestamp; on `exn` the handler acquires `cache_lock` (`app.py:561`)
and returns the previous slot contents (or `[]`) with no state change.
`lockHeld` says whether the calling thread already holds `cache_lock`
(true when called from `get_cached_data`): acquiring it again deadlocks. -/
def fetch_data {E : Type} (st : DMState E) (includePro : Bool)
    (oc : RefreshOutcome E) (fetchedSyms : List String) (now : ℚ)
    (lockHeld : Bool) : DMResult (List E × DMState E) :=
  let st1 : DMState E :=
    if st.activeSyms = [] then
      DMState.mk fetchedSyms st.cachedData st.cachedProData st.lastUpdate
    else st
  match oc with
  | .volumeNone => .ret ([], st1)
  | .fundingNone => .ret ([], st1)
  | .ok processed =>
      if lockHeld then .deadlock
      else
        .ret (processed,
          DMState.mk st1.activeSyms
            (if includePro then st1.cachedData else processed)
            (if includePro then processed else st1.cachedProData)
            (some now))
  | .exn =>
      if lockHeld then .deadlock
      else
        .ret ((if includePro then
                 (if st1.cachedProData.isEmpty then [] else st1.cachedProData)
               else
                 (if st1.cachedData.isEmpty then [] else st1.cachedData)), st1)

/-- Embedding of `DataManager.get_cached_data` (`app.py:393-405`), the
`getSnapshot` operation: under `cache_lock`, return the requested slot's
entries and the shared `last_update` when the slot is non-empty; otherwise
fall back to a synchronous `fetch_data` — called while still holding
`cache_lock`, hence with `lockHeld := true` — paired with the current time. -/
def get_cached_data {E : Type} (st : DMState E) (includePro : Bool)
    (oc : RefreshOutcome E) (fetchedSyms : List String) (now : ℚ) :
    DMResult ((List E × Option ℚ) × DMState E) :=
  if includePro && !st.cachedProData.isEmpty then
    .ret ((st.cachedProData, st.lastUpdate), st)
  else if !includePro && !st.cachedData.isEmpty then
    .ret ((st.cachedData, st.lastUpdate), st)
  else
    match fetch_data st includePro oc fetchedSyms now true with
    | .deadlock => .deadlock
    | .ret (data, st') => .ret ((data, some now), st')

/-- Per-tier alert-history limit, from `config.get_alert_limit`
(`config.py:324-335`) over `get_tier_config` (`config.py:277-292`):
Free (0) → 10 (`config.py:87`), Pro (1) → 30 (`config.py:119`),
Elite (2) → `None` i.e. unlimited (`config.py:152`); unknown tiers default
to the Free configuration. -/
def get_alert_limit (tierLevel : Nat) : Option Nat :=
  match tierLevel with
  | 0 => some 10
  | 1 => some 30
  | 2 => none
  | _ => some 10

/-- Embedding of the `/api/alerts` handler `get_alerts` (`app.py:1229-1243`):
an authenticated user contributes their tier, a guest (`authTier = none`) is
treated as Free with limit 10; when the limit is a number the global log is
sliced to its last that-many entries, and when it is `None` (unlimited) the
log is returned whole. -/
def get_alerts (log : List AlertEvent) (authTier : Option Nat) :
    List AlertEvent :=
  let alertLimit : Option Nat :=
    match authTier with
    | some t => get_alert_limit t
    | none => some 10
  match alertLimit with
  | some n => takeLast n log
  | none => log

/-! ## Helper lemmas about `takeLast` and the rolling log -/

theorem takeLast_length {α : Type} (n : Nat) (l : List α) :
    (takeLast n l).length = min n l.length := by
  simp only [takeLast, List.length_drop]
  omega

theorem takeLast_of_length_le {α : Type} {n : Nat} {l : List α}
    (h : l.length ≤ n) : takeLast n l = l := by
  simp only [takeLast, Nat.sub_eq_zero_of_le h, List.drop_zero]

theorem mem_takeLast {α : Type} {n : Nat} {l : List α} {a : α}
    (h : a ∈ takeLast n l) : a ∈ l :=
  List.mem_of_mem_drop h

theorem takeLast_takeLast_append {α : Type} (n : Nat) (xs ys : List α) :
    takeLast n (takeLast n xs ++ ys) = takeLast n (xs ++ ys) := by
  have h2 : (takeLast n xs).length = min n xs.length := takeLast_length n xs
  show (takeLast n xs ++ ys).drop ((takeLast n xs ++ ys).length - n)
      = (xs ++ ys).drop ((xs ++ ys).length - n)
  rw [List.drop_append_eq_append_drop, List.drop_append_eq_append_drop]
  congr 1
  · show (xs.drop (xs.length - n)).drop _ = xs.drop _
    rw [List.drop_drop]
    congr 1
    simp only [List.length_append]
    omega
  · congr 1
    simp only [List.length_append]
    omega

theorem pushAlert_length_le {α : Type} (log : List α) (ev : α) :
    (pushAlert log ev).length ≤ 30 := by
  rw [pushAlert, takeLast_length]
  omega

theorem foldl_pushAlert {α : Type} (es : List α) :
    ∀ l : List α, l.length ≤ 30 → es.foldl pushAlert l = takeLast 30 (l ++ es) := by
  induction es with
  | nil =>
    intro l h
    rw [List.foldl_nil, List.append_nil, takeLast_of_length_le h]
  | cons e es ih =>
    intro l h
    rw [List.foldl_cons, ih (pushAlert l e) (pushAlert_length_le l e), pushAlert,
      takeLast_takeLast_append]
    congr 1
    simp

/-! ## Claim theorems -/

/-- C6: for every sequence of 30+k appends to the rolling alert log capped at
30, the log's length afterwards is exactly 30 and the retained events are
exactly the 30 most recent ones in insertion order (oldest evicted first);
moreover a single append step never leaves the log longer than 30. -/
theorem C6_rolling_log_bound :
    (∀ (log : List AlertEvent) (ev : AlertEvent), (pushAlert log ev).length ≤ 30) ∧
    ∀ (k : Nat) (es : List AlertEvent), es.length = 30 + k →
      (es.foldl pushAlert []).length = 30 ∧ es.foldl pushAlert [] = es.drop k := by
  constructor
  · exact pushAlert_length_le
  · intro k es h
    have base : es.foldl pushAlert [] = takeLast 30 es := by
      simpa using foldl_pushAlert es [] (by simp)
    constructor
    · rw [base, takeLast_length]
      omega
    · rw [base]
      show es.drop (es.length - 30) = es.drop k
      congr 1
      omega

/-- Witness for C6 at a concrete input: 32 appends leave exactly the last 30
events, in order. -/
theorem C6_rolling_log_bound_witness :
    (((List.range 32).map
        (fun i => AlertEvent.mk i "" "X" 0 0 .spike)).foldl pushAlert []).length = 30 ∧
    ((List.range 32).map
        (fun i => AlertEvent.mk i "" "X" 0 0 .spike)).foldl pushAlert []
      = ((List.range 32).map (fun i => AlertEvent.mk i "" "X" 0 0 .spike)).drop 2 :=
  C6_rolling_log_bound.2 2 _ (by simp)

/-- C10: the alerts-listing API returns at most 30 events for every tier —
including the Elite tier, whose configured alert limit is `None` (documented
as unlimited history and returning the whole log) — because the scanner
truncates the single global alert log to its last 30 entries after every
append. -/
theorem C10_alerts_api_capped :
    get_alert_limit 2 = none ∧
    (∀ (es : List AlertEvent) (tier : Option Nat),
       (get_alerts (es.foldl pushAlert []) tier).length ≤ 30) ∧
    (∀ es : List AlertEvent,
       get_alerts (es.foldl pushAlert []) (some 2) = es.foldl pushAlert []) := by
  refine ⟨rfl, ?_, fun es => rfl⟩
  intro es tier
  have hlen : (es.foldl pushAlert []).length ≤ 30 := by
    have base : es.foldl pushAlert [] = takeLast 30 es := by
      simpa using foldl_pushAlert es [] (by simp)
    rw [base, takeLast_length]
    omega
  unfold get_alerts
  rcases tier with _ | t
  · simp only [takeLast_length]
    omega
  · rcases hl : get_alert_limit t with _ | n
    · simpa [hl] using hlen
    · simp only [hl, takeLast_length]
      omega

theorem fetch_with_fallback_eq_none_iff {α : Type} (attempts : List (Attempt α)) :
    fetch_with_fallback attempts = none ↔ ∀ a ∈ attempts, a.ok200 = false := by
  induction attempts with
  | nil => simp [fetch_with_fallback]
  | cons a rest ih =>
    cases a with
    | exn => simp [fetch_with_fallback, Attempt.ok200, ih]
    | resp s q =>
      by_cases hs : s = 200
      · subst hs
        simp [fetch_with_fallback, Attempt.ok200]
      · simp [fetch_with_fallback, hs, Attempt.ok200, ih]

theorem fetch_with_fallback_eq_some_iff {α : Type} (attempts : List (Attempt α))
    (p : α) :
    fetch_with_fallback attempts = some p ↔
      ∃ pre post, attempts = pre ++ Attempt.resp 200 p :: post ∧
        ∀ a ∈ pre, a.ok200 = false := by
  induction attempts with
  | nil =>
    simp [fetch_with_fallback]
  | cons a rest ih =>
    have skip : a.ok200 = false →
        (fetch_with_fallback rest = some p ↔
          ∃ pre post, a :: rest = pre ++ Attempt.resp 200 p :: post ∧
            ∀ b ∈ pre, b.ok200 = false) := by
      intro h200
      rw [ih]
      constructor
      · rintro ⟨pre, post, heq, hall⟩
        refine ⟨a :: pre, post, by rw [heq, List.cons_append], ?_⟩
        intro b hb
        rcases List.mem_cons.mp hb with hb | hb
        · exact hb ▸ h200
        · exact hall b hb
      · rintro ⟨pre, post, heq, hall⟩
        cases pre with
        | nil =>
          rw [List.nil_append] at heq
          have : a = Attempt.resp 200 p := (List.cons.injEq _ _ _ _ ▸ heq).1
          rw [this] at h200
          simp [Attempt.ok200] at h200
        | cons b pre' =>
          rw [List.cons_append] at heq
          have h1 : a = b := (List.cons.injEq _ _ _ _ ▸ heq).1
          have h2 : rest = pre' ++ Attempt.resp 200 p :: post :=
            (List.cons.injEq _ _ _ _ ▸ heq).2
          exact ⟨pre', post, h2, fun c hc => hall c (List.mem_cons_of_mem b hc)⟩
    cases a with
    | exn =>
      have he : fetch_with_fallback (Attempt.exn :: rest) = fetch_with_fallback rest := rfl
      rw [he]
      exact skip rfl
    | resp s q =>
      by_cases hs : s = 200
      · subst hs
        have he : fetch_with_fallback (Attempt.resp 200 q :: rest) = some q := by
          simp [fetch_with_fallback]
        rw [he]
        constructor
        · intro h
          have : q = p := by injection h
          subst this
          exact ⟨[], rest, rfl, by simp⟩
        · rintro ⟨pre, post, heq, hall⟩
          cases pre with
          | nil =>
            rw [List.nil_append] at heq
            have : Attempt.resp 200 q = Attempt.resp 200 p :=
              (List.cons.injEq _ _ _ _ ▸ heq).1
            have := (Attempt.resp.injEq _ _ _ _ ▸ this).2
            rw [this]
          | cons b pre' =>
            rw [List.cons_append] at heq
            have h1 : Attempt.resp 200 q = b := (List.cons.injEq _ _ _ _ ▸ heq).1
            have hb := hall b (List.mem_cons_self b pre')
            rw [← h1] at hb
            simp [Attempt.ok200] at hb
      · have he : fetch_with_fallback (Attempt.resp s q :: rest)
            = fetch_with_fallback rest := by
          simp [fetch_with_fallback, hs]
        rw [he]
        exact skip (by simp [Attempt.ok200, hs])

/-- C7: the fallback fetch tries the mirrors in order, returns the payload of
the first HTTP-200 response, skips past geo-blocked (451), other non-200 and
exception attempts, and returns `none` exactly when no mirror gave a 200; in
particular with mirror 1 geo-blocked and mirror 2 returning 200 it returns
mirror 2's payload. -/
theorem C7_mirror_fallback {α : Type} (attempts : List (Attempt α))
    (geoPayload okPayload : α) (rest : List (Attempt α)) :
    (fetch_with_fallback attempts = none ↔ ∀ a ∈ attempts, a.ok200 = false) ∧
    (∀ p : α, fetch_with_fallback attempts = some p ↔
        ∃ pre post, attempts = pre ++ Attempt.resp 200 p :: post ∧
          ∀ a ∈ pre, a.ok200 = false) ∧
    fetch_with_fallback
        (Attempt.resp 451 geoPayload :: Attempt.resp 200 okPayload :: rest)
      = some okPayload := by
  refine ⟨fetch_with_fallback_eq_none_iff attempts,
    fun p => fetch_with_fallback_eq_some_iff attempts p, ?_⟩
  simp [fetch_with_fallback]

/-- Witness for C7 at a concrete input: two mirrors, the first geo-blocked
(451) and the second answering 200 with payload 7; the fetch returns 7, and
it would return `none` only if no attempt were a 200. -/
theorem C7_mirror_fallback_witness :
    fetch_with_fallback [Attempt.resp 451 (3 : Nat), Attempt.resp 200 7] = some 7 :=
  (C7_mirror_fallback [] (3 : Nat) 7 []).2.2

/-- C1: for a symbol whose stored alert record matches the current hour
(`alreadyAlerted`), the detection step emits a follow-up alert exactly when
the wall-clock minute is 30 and the stored initial-alert minute is ≤ 20
(message prefixed `"HALF-UPDATE: "`), or else the minute is 0 and the stored
initial-alert minute is ≠ 55 (message prefixed `"UPDATE: "`); in all other
cases nothing is emitted, and the stored state is unchanged either way. -/
theorem C1_followup_emission (sym : String) (minute : Nat) (prev curr : Kline)
    (pv cv : ℚ) (im : Nat) (st : AlertState)
    (hp : prev.quoteVol = some pv) (hc : curr.quoteVol = some cv)
    (ha : st.lastAlert = some (hourOf curr.openTime))
    (hi : st.initialMinute = some im) :
    scan_detect sym minute prev curr st =
      .ok ((if minute = 30 ∧ im ≤ 20 then
              [AlertEvent.mk minute "HALF-UPDATE: " sym cv
                (if pv = 0 then 0 else cv / pv) .halfUpdate]
            else if minute = 0 ∧ im ≠ 55 then
              [AlertEvent.mk minute "UPDATE: " sym cv
                (if pv = 0 then 0 else cv / pv) .fullUpdate]
            else []), st) := by
  obtain ⟨po, pc, pq⟩ := prev
  obtain ⟨co, cc, cq⟩ := curr
  simp only at hp hc ha
  subst hp
  subst hc
  by_cases h30 : minute = 30
  · subst h30
    by_cases him : im ≤ 20
    · simp [scan_detect, ha, hi, him]
    · simp [scan_detect, ha, hi, him]
  · by_cases h0 : minute = 0
    · subst h0
      by_cases h55 : im = 55
      · simp [scan_detect, ha, hi, h55]
      · simp [scan_detect, ha, hi, h55, h30]
    · simp [scan_detect, ha, hi, h30, h0]

/-- Witness for C1 at a concrete input: a record stored at minute 5 of the
current hour gets a half-update at minute 30. -/
theorem C1_followup_emission_witness :
    scan_detect "BTCUSDT" 30 (Kline.mk 0 10 (some 1))
        (Kline.mk 3600000 7200000 (some 2)) (AlertState.mk (some 1) (some 5)) =
      .ok ([AlertEvent.mk 30 "HALF-UPDATE: " "BTCUSDT" 2 2 .halfUpdate],
        AlertState.mk (some 1) (some 5)) := by
  have h := C1_followup_emission "BTCUSDT" 30 (Kline.mk 0 10 (some 1))
    (Kline.mk 3600000 7200000 (some 2)) 1 2 5 (AlertState.mk (some 1) (some 5))
    rfl rfl (by decide) rfl
  simpa using h

/-- C3: once the per-symbol state records the current hour as already
alerted, re-running the detection step for the same hour never produces a
second spike event, regardless of the volume data — only follow-up events
remain possible — and the stored state is left unchanged. -/
theorem C3_spike_idempotent (sym : String) (minute : Nat) (prev curr : Kline)
    (st : AlertState) (ha : st.lastAlert = some (hourOf curr.openTime)) :
    ∀ evs st', scan_detect sym minute prev curr st = .ok (evs, st') →
      st' = st ∧ ∀ e ∈ evs, e.kind ≠ EventKind.spike := by
  intro evs st' h
  obtain ⟨po, pc, pq⟩ := prev
  obtain ⟨co, cc, cq⟩ := curr
  simp only at ha
  cases pq with
  | none => simp [scan_detect] at h
  | some pv =>
    cases cq with
    | none => simp [scan_detect] at h
    | some cv =>
      simp only [scan_detect, ha] at h
      simp at h
      obtain ⟨h1, h2⟩ := h
      refine ⟨h2.symm, ?_⟩
      intro e he
      rw [← h1] at he
      repeat' split at he
      all_goals
        first
          | exact absurd he (List.not_mem_nil e)
          | (rcases List.mem_singleton.mp he with rfl; simp)

/-- Witness for C3 at a concrete input: with the current hour already
alerted and a huge volume jump, no spike event is emitted and the state is
unchanged. -/
theorem C3_spike_idempotent_witness :
    (AlertState.mk (some 1) (some 0) : AlertState)
        = AlertState.mk (some 1) (some 0) ∧
    ∀ e ∈ ([] : List AlertEvent), e.kind ≠ EventKind.spike :=
  C3_spike_idempotent "BTCUSDT" 7 (Kline.mk 0 10 (some 0))
    (Kline.mk 3600000 7200000 (some 5000000)) (AlertState.mk (some 1) (some 0))
    (by decide) [] (AlertState.mk (some 1) (some 0)) rfl

/-- C4: at a top-of-hour checkpoint the candle selection keeps only candles
whose close time is strictly before now and hands the last two of those to
the detection step; with fewer than 2 closed candles it returns nothing and
the symbol is skipped for the cycle with no state change (also when the
fetch itself raised). -/
theorem C4_closed_candle_selection (kl : List Kline) (nowMs : Int)
    (sym : String) (st : AlertState) :
    (∀ k ∈ last_two_closed_klines (.ok kl) nowMs, k.closeTime < nowMs) ∧
    last_two_closed_klines (.error ()) nowMs = [] ∧
    ((kl.filter (fun k => decide (k.closeTime < nowMs))).length < 2 →
        last_two_closed_klines (.ok kl) nowMs = [] ∧
        scan_symbol sym 0 nowMs (.ok kl) st = .ok ([], st)) ∧
    (2 ≤ (kl.filter (fun k => decide (k.closeTime < nowMs))).length →
        ∃ prev curr,
          takeLast 2 (kl.filter (fun k => decide (k.closeTime < nowMs)))
              = [prev, curr] ∧
          last_two_closed_klines (.ok kl) nowMs = [prev, curr] ∧
          scan_symbol sym 0 nowMs (.ok kl) st = scan_detect sym 0 prev curr st) := by
  refine ⟨?_, rfl, ?_, ?_⟩
  · intro k hk
    unfold last_two_closed_klines at hk
    dsimp only at hk
    split at hk
    · have hmem := List.of_mem_filter (mem_takeLast hk)
      simpa using hmem
    · simp at hk
  · intro h
    have hc : ¬ 2 ≤ (kl.filter (fun k => decide (k.closeTime < nowMs))).length := by
      omega
    have hnil : last_two_closed_klines (.ok kl) nowMs = [] := by
      unfold last_two_closed_klines
      simp only [hc, if_false]
    refine ⟨hnil, ?_⟩
    unfold scan_symbol
    rw [hnil]
    simp
  · intro h
    have hlen : (takeLast 2
        (kl.filter (fun k => decide (k.closeTime < nowMs)))).length = 2 := by
      rw [takeLast_length]
      omega
    obtain ⟨prev, curr, htl⟩ := List.length_eq_two.mp hlen
    have hsel : last_two_closed_klines (.ok kl) nowMs = [prev, curr] := by
      unfold last_two_closed_klines
      simp only [h, if_true, htl]
    refine ⟨prev, curr, htl, hsel, ?_⟩
    unfold scan_symbol
    rw [hsel]
    simp

/-- Witness for C4 at a concrete input: three fetched candles of which the
third is still open; the two closed ones are selected in order. -/
theorem C4_closed_candle_selection_witness :
    2 ≤ (([Kline.mk 0 10 (some 1), Kline.mk 3600000 7200000 (some 2),
           Kline.mk 7200000 10800000 (some 3)].filter
            (fun k => decide (k.closeTime < (7200001 : Int)))).length) ∧
    ∃ prev curr,
      takeLast 2 ([Kline.mk 0 10 (some 1), Kline.mk 3600000 7200000 (some 2),
           Kline.mk 7200000 10800000 (some 3)].filter
            (fun k => decide (k.closeTime < (7200001 : Int)))) = [prev, curr] ∧
      last_two_closed_klines
          (.ok [Kline.mk 0 10 (some 1), Kline.mk 3600000 7200000 (some 2),
            Kline.mk 7200000 10800000 (some 3)]) 7200001 = [prev, curr] ∧
      scan_symbol "BTCUSDT" 0 7200001
          (.ok [Kline.mk 0 10 (some 1), Kline.mk 3600000 7200000 (some 2),
            Kline.mk 7200000 10800000 (some 3)]) (AlertState.mk none none)
        = scan_detect "BTCUSDT" 0 prev curr (AlertState.mk none none) :=
  ⟨by decide,
   (C4_closed_candle_selection _ 7200001 "BTCUSDT" (AlertState.mk none none)).2.2.2
     (by decide)⟩

/-- C9 counterexample: a per-symbol exception raised while handling the
fetched data — here `float(prev[7])` on a malformed volume field — is not
caught by the per-symbol handler (which only wraps the kline fetch), so it
aborts the cycle: the second symbol, whose data would have produced a
half-update alert on its own, is never processed and the cycle ends with an
empty log. -/
theorem C9_handling_exception_aborts_cycle :
    (scan_alerts 30 0
        (fun s => if s = "AAAUSDT" then
            .ok [Kline.mk 0 10 none, Kline.mk 3600000 7200000 (some 1)]
          else
            .ok [Kline.mk 0 10 (some 0), Kline.mk 3600000 7200000 (some 0)])
        ["AAAUSDT", "BBBUSDT"]
        (fun _ => AlertState.mk (some 1) (some 0)) []).aborted = true ∧
    (scan_alerts 30 0
        (fun s => if s = "AAAUSDT" then
            .ok [Kline.mk 0 10 none, Kline.mk 3600000 7200000 (some 1)]
          else
            .ok [Kline.mk 0 10 (some 0), Kline.mk 3600000 7200000 (some 0)])
        ["AAAUSDT", "BBBUSDT"]
        (fun _ => AlertState.mk (some 1) (some 0)) []).log = [] ∧
    (scan_alerts 30 0
        (fun s => if s = "AAAUSDT" then
            .ok [Kline.mk 0 10 none, Kline.mk 3600000 7200000 (some 1)]
          else
            .ok [Kline.mk 0 10 (some 0), Kline.mk 3600000 7200000 (some 0)])
        ["AAAUSDT", "BBBUSDT"]
        (fun _ => AlertState.mk (some 1) (some 0)) []).states "BBBUSDT"
        = AlertState.mk (some 1) (some 0) ∧
    (scan_alerts 30 0
        (fun s => if s = "AAAUSDT" then
            .ok [Kline.mk 0 10 none, Kline.mk 3600000 7200000 (some 1)]
          else
            .ok [Kline.mk 0 10 (some 0), Kline.mk 3600000 7200000 (some 0)])
        ["BBBUSDT"] (fun _ => AlertState.mk (some 1) (some 0)) []).log ≠ [] := by
  refine ⟨rfl, rfl, rfl, ?_⟩
  decide

/-- C9 (amended): an exception raised while fetching or parsing a symbol's
klines is caught by the per-symbol handler: the symbol is skipped with no
state change, no log change, and the remaining symbols are still
processed. -/
theorem C9_fetch_failure_skipped (minute : Nat) (nowMs : Int)
    (fetched : String → Except Unit (List Kline)) (sym : String)
    (rest : List String) (states : String → AlertState) (log : List AlertEvent)
    (h : fetched sym = .error ()) :
    scan_symbol sym minute nowMs (fetched sym) (states sym)
        = .ok ([], states sym) ∧
    scan_alerts minute nowMs fetched (sym :: rest) states log =
      scan_alerts minute nowMs fetched rest states log := by
  have hstep : scan_symbol sym minute nowMs (fetched sym) (states sym)
      = .ok ([], states sym) := by
    rw [h]
    unfold scan_symbol
    by_cases hm : minute = 0
    · simp [hm, last_two_closed_klines]
    · simp [hm]
  have hfun : (fun s => if s = sym then states sym else states s) = states := by
    funext s
    by_cases hs : s = sym
    · rw [if_pos hs, hs]
    · rw [if_neg hs]
  refine ⟨hstep, ?_⟩
  simp only [scan_alerts, hstep, List.foldl_nil, hfun]

/-- Witness for C9's amended statement at a concrete input: the first
symbol's kline fetch raises, so it is skipped and the cycle result is that of
the remaining symbol alone. -/
theorem C9_fetch_failure_skipped_witness :
    scan_symbol "AAAUSDT" 5 0
        ((fun s => if s = "AAAUSDT" then (.error () : Except Unit (List Kline))
          else .ok []) "AAAUSDT") ((fun _ => AlertState.mk none none) "AAAUSDT")
        = .ok ([], AlertState.mk none none) ∧
    scan_alerts 5 0
        (fun s => if s = "AAAUSDT" then (.error () : Except Unit (List Kline))
          else .ok [])
        ["AAAUSDT", "BBBUSDT"] (fun _ => AlertState.mk none none) [] =
      scan_alerts 5 0
        (fun s => if s = "AAAUSDT" then (.error () : Except Unit (List Kline))
          else .ok [])
        ["BBBUSDT"] (fun _ => AlertState.mk none none) [] :=
  C9_fetch_failure_skipped 5 0
    (fun s => if s = "AAAUSDT" then (.error () : Except Unit (List Kline))
      else .ok [])
    "AAAUSDT" ["BBBUSDT"] (fun _ => AlertState.mk none none) [] rfl

/-- C2: a refresh attempt that fails — the volume or funding endpoint chain
returning no response, or an exception raised mid-refresh — leaves both cache
slots' entries and the last-updated timestamp unchanged and still returns
normally; and on a slot populated by a prior refresh, `get_cached_data`
returns the cached entries and timestamp directly, so no exception reaches
its caller. -/
theorem C2_refresh_failure_preserves_cache {E : Type} (st : DMState E)
    (oc : RefreshOutcome E) (fetchedSyms : List String) (now : ℚ)
    (hfail : oc = .volumeNone ∨ oc = .fundingNone ∨ oc = .exn) :
    (∀ includePro : Bool, ∃ d st',
        fetch_data st includePro oc fetchedSyms now false = .ret (d, st') ∧
        st'.cachedData = st.cachedData ∧
        st'.cachedProData = st.cachedProData ∧
        st'.lastUpdate = st.lastUpdate) ∧
    (st.cachedProData ≠ [] →
        get_cached_data st true oc fetchedSyms now
          = .ret ((st.cachedProData, st.lastUpdate), st)) ∧
    (st.cachedData ≠ [] →
        get_cached_data st false oc fetchedSyms now
          = .ret ((st.cachedData, st.lastUpdate), st)) := by
  have h1 : (if st.activeSyms = [] then
      DMState.mk fetchedSyms st.cachedData st.cachedProData st.lastUpdate
    else st).cachedData = st.cachedData := by
    by_cases hs : st.activeSyms = [] <;> simp [hs]
  have h2 : (if st.activeSyms = [] then
      DMState.mk fetchedSyms st.cachedData st.cachedProData st.lastUpdate
    else st).cachedProData = st.cachedProData := by
    by_cases hs : st.activeSyms = [] <;> simp [hs]
  have h3 : (if st.activeSyms = [] then
      DMState.mk fetchedSyms st.cachedData st.cachedProData st.lastUpdate
    else st).lastUpdate = st.lastUpdate := by
    by_cases hs : st.activeSyms = [] <;> simp [hs]
  refine ⟨?_, ?_, ?_⟩
  · intro includePro
    rcases hfail with rfl | rfl | rfl
    · exact ⟨_, _, rfl, h1, h2, h3⟩
    · exact ⟨_, _, rfl, h1, h2, h3⟩
    · exact ⟨_, _, rfl, h1, h2, h3⟩
  · intro hne
    have hie : st.cachedProData.isEmpty = false := by
      cases hcp : st.cachedProData with
      | nil => exact absurd hcp hne
      | cons a l => rfl
    unfold get_cached_data
    simp [hie]
  · intro hne
    have hie : st.cachedData.isEmpty = false := by
      cases hcp : st.cachedData with
      | nil => exact absurd hcp hne
      | cons a l => rfl
    unfold get_cached_data
    simp [hie]

/-- Witness for C2 at a concrete input: with both slots populated, an
exception-failing refresh returns without touching the slots or the
timestamp, and `get_cached_data` on the populated extended slot answers from
cache. -/
theorem C2_refresh_failure_preserves_cache_witness :
    get_cached_data (DMState.mk ["X"] [1] [2] (some 5) : DMState Nat)
        true .exn [] 9
      = .ret (([2], some 5), DMState.mk ["X"] [1] [2] (some 5)) :=
  (C2_refresh_failure_preserves_cache
      (DMState.mk ["X"] [1] [2] (some 5) : DMState Nat) .exn [] 9
      (Or.inr (Or.inr rfl))).2.1 (by decide)

/-- C5 counterexample: the two cache slots do not have their own last-updated
timestamps.  Starting from a state whose basic slot was filled at time 100, a
successful refresh of the extended slot at time 200 leaves the basic entries
unchanged but afterwards a basic-slot read reports timestamp 200, not 100:
the single shared `last_update` moved. -/
theorem C5_per_slot_timestamp_counterexample :
    fetch_data (DMState.mk ["BTCUSDT"] [7] [] (some 100) : DMState Nat) true
        (.ok [9]) [] 200 false
      = .ret ([9], DMState.mk ["BTCUSDT"] [7] [9] (some 200)) ∧
    get_cached_data (DMState.mk ["BTCUSDT"] [7] [9] (some 200) : DMState Nat)
        false .exn [] 300
      = .ret (([7], some 200), DMState.mk ["BTCUSDT"] [7] [9] (some 200)) ∧
    some (200 : ℚ) ≠ some (100 : ℚ) :=
  ⟨rfl, rfl, by decide⟩

/-- C5 (amended): a successful refresh of one slot leaves the other slot's
entries unchanged, but the last-updated timestamp is a single field shared by
both slots: the refresh sets it to the refresh time, which is then also the
timestamp reported for the other slot. -/
theorem C5_shared_timestamp_refresh {E : Type} (st : DMState E)
    (processed : List E) (fetchedSyms : List String) (now : ℚ) :
    (∃ st', fetch_data st true (.ok processed) fetchedSyms now false
        = .ret (processed, st') ∧
      st'.cachedData = st.cachedData ∧ st'.cachedProData = processed ∧
      st'.lastUpdate = some now) ∧
    (∃ st', fetch_data st false (.ok processed) fetchedSyms now false
        = .ret (processed, st') ∧
      st'.cachedProData = st.cachedProData ∧ st'.cachedData = processed ∧
      st'.lastUpdate = some now) := by
  constructor
  · refine ⟨_, rfl, ?_, ?_, ?_⟩ <;>
      · by_cases hs : st.activeSyms = [] <;> simp [fetch_data, hs]
  · refine ⟨_, rfl, ?_, ?_, ?_⟩ <;>
      · by_cases hs : st.activeSyms = [] <;> simp [fetch_data, hs]

/-- C8: evaluation of the code at the failing input.  On a cold start
(both slots empty) with the synchronous fetch raising mid-refresh, the
`get_cached_data` call deadlocks: it calls `fetch_data` while holding the
non-reentrant `cache_lock`, and the exception handler re-acquires that lock —
the call never returns, instead of propagating an empty result.  Only the
failure mode in which the endpoint chains return no response produces the
documented empty result (with no error flag, just the empty list and the
current time). -/
theorem C8_cold_start_deadlock :
    get_cached_data (DMState.mk [] [] [] none : DMState Nat) false .exn
        ["BTCUSDT"] 0 = DMResult.deadlock ∧
    get_cached_data (DMState.mk [] [] [] none : DMState Nat) false .volumeNone
        ["BTCUSDT"] 0
      = .ret (([], some 0), DMState.mk ["BTCUSDT"] [] [] none) ∧
    get_cached_data (DMState.mk [] [] [] none : DMState Nat) false
        (.ok [1]) ["BTCUSDT"] 0 = DMResult.deadlock :=
  ⟨rfl, rfl, rfl⟩

end FlashCur
